import Mathlib

/-!
Shallow embedding of the va-expressupload upload pipeline: the chunked
upload engine (`streamingUploadService.js`), the upload orchestrator
(`videoController.js`), the quota tracker (`auth` middleware and
`UserQuotaService`), the SSE progress channel (`upload-progress` route),
the metadata-storage completion route (`store-video-metadata`) and the
catalog-rebuild routine (`azureStorageService.js`).  Machine integers are
modelled as `Nat` (JS numbers on these code paths stay far below 2^53, so
no overflow is reachable), JS `Map`s as association lists, and fallible
storage/network operations as explicit outcome parameters.
-/

set_option autoImplicit false

namespace VAExpress

/-! ## Constants (src/src/services/streamingUploadService.js, lines 8-11,
and UserQuotaService / recordUpload default quota) -/

/-- 50 MB chunk size (`CHUNK_SIZE = 50 * 1024 * 1024`). -/
def CHUNK_SIZE : Nat := 50 * 1024 * 1024

/-- `MAX_CONCURRENT_UPLOADS = 4` — declared chunk parallelism constant. -/
def MAX_CONCURRENT_UPLOADS : Nat := 4

/-- Streaming threshold: `shouldUseStreamingUpload` compares against
`50 * 1024 * 1024`. -/
def STREAMING_THRESHOLD : Nat := 50 * 1024 * 1024

/-- `DEFAULT_QUOTA = 5 * 1024 * 1024 * 1024` (5 GiB), also the default in
`recordUpload`. -/
def DEFAULT_QUOTA : Nat := 5 * 1024 * 1024 * 1024

/-- `shouldUseStreamingUpload(fileSize)` returns
`fileSize > 50 * 1024 * 1024` (strict comparison in the source). -/
def shouldUseStreamingUpload (fileSize : Nat) : Bool :=
  decide (fileSize > 50 * 1024 * 1024)

/-! ## Transfer plan of the engine (C2) -/

/-- The shape of the storage transfer performed for one upload: either a
single whole-object `upload` call, or block staging followed by commits. -/
inductive UploadPlan where
  | single
  | chunked (numBlocks : Nat) (maxConcurrency : Nat) (commitCount : Nat)
deriving DecidableEq, Repr

/-- Model of the Azure SDK `BlockBlobClient.uploadStream(stream,
bufferSize, maxConcurrency, options)` contract: the client stages
`ceil(size / bufferSize)` blocks, bounded by the positional
`maxConcurrency` argument, and finishes with a single `commitBlockList`.
The `options` bag passed by the source (`blockSize`, `concurrency`,
`maxSingleShotSize`) is not part of `uploadStream`'s contract and does not
alter the plan. -/
def uploadStreamPlan (fileSize bufferSize maxConcurrency : Nat) : UploadPlan :=
  .chunked ((fileSize + bufferSize - 1) / bufferSize) maxConcurrency 1

/-- Transfer plan of `uploadVideoToAzure` (videoService): for
`shouldUseStreamingUpload(size)` it calls
`blockBlobClient.uploadStream(fileStream, CHUNK_SIZE, 2, uploadOptions)`
(the literal `2` is the positional max-concurrency argument, commented
`// max concurrency` in the source); otherwise `uploadVideoBufferToAzure`
issues one whole-object `blockBlobClient.upload`. -/
def uploadPlanOf (fileSize : Nat) : UploadPlan :=
  if shouldUseStreamingUpload fileSize then
    uploadStreamPlan fileSize CHUNK_SIZE 2
  else
    .single

/-! ## Progress events (C6)

`createProgressStream` (streamingUploadService, lines 223-252) pushes the
buffer in `CHUNK_SIZE` pieces and reports the accumulated `loadedBytes`
after each piece; `uploadVideoToAzure` (videoService, lines 28-41)
forwards each report as a progress event whose displayed percentage is
`Math.round(((loadedBytes / totalBytes) * 100).toFixed(1))`. -/

/-- Number of chunk pieces pushed for a file of `fileSize` bytes:
`ceil(fileSize / CHUNK_SIZE)`. -/
def numChunks (fileSize : Nat) : Nat :=
  (fileSize + CHUNK_SIZE - 1) / CHUNK_SIZE

/-- Accumulated bytes after the `k`-th chunk piece (1-based):
`min (k * CHUNK_SIZE) fileSize`. -/
def chunkBytes (fileSize k : Nat) : Nat :=
  min (k * CHUNK_SIZE) fileSize

/-- Exact-rational model of
`Math.round(((b / s) * 100).toFixed(1))`: `toFixed(1)` rounds
`100 * b / s` to the nearest tenth (ties away from zero, i.e. up for
nonnegative values), and `Math.round` then rounds the tenths value half
up. -/
def displayedPercent (b s : Nat) : Nat :=
  ((2 * (1000 * b) + s) / (2 * s) + 5) / 10

/-- Exact-rational model of direct `Math.round((b / s) * 100)` (round
half up), the single-rounding reading of the spec. -/
def directRoundPercent (b s : Nat) : Nat :=
  (2 * (100 * b) + s) / (2 * s)

/-- One forwarded progress event (`{progress, bytesUploaded, totalBytes}`). -/
structure ProgressEvent where
  progress : Nat
  bytesUploaded : Nat
  totalBytes : Nat
deriving DecidableEq, Repr

/-- The progress events forwarded for one upload: streaming uploads emit
one event per chunk piece; the small-file buffer path
(`uploadVideoBufferToAzure`) receives no progress callback (its signature
has no such parameter) and emits none. -/
def progressEvents (fileSize : Nat) : List ProgressEvent :=
  if shouldUseStreamingUpload fileSize then
    (List.range (numChunks fileSize)).map (fun k =>
      { progress := displayedPercent (chunkBytes fileSize (k + 1)) fileSize
        bytesUploaded := chunkBytes fileSize (k + 1)
        totalBytes := fileSize })
  else
    []

/-! ## JS string builtins used by the engine and the rebuild routine -/

/-- Character for the decimal digit `d` (`d < 10`; other inputs map to
a placeholder). Models the digit characters produced by JS
`Number.prototype.toString()`. -/
def digitChar (d : Nat) : Char :=
  if d = 0 then '0' else if d = 1 then '1' else if d = 2 then '2'
  else if d = 3 then '3' else if d = 4 then '4' else if d = 5 then '5'
  else if d = 6 then '6' else if d = 7 then '7' else if d = 8 then '8'
  else if d = 9 then '9' else '*'

/-- Base-10 digits of `n`, least significant first (empty for `0`). -/
def digitsRevD (n : Nat) : List Nat :=
  if h : n = 0 then []
  else (n % 10) :: digitsRevD (n / 10)
termination_by n
decreasing_by exact Nat.div_lt_self (Nat.pos_of_ne_zero h) (by decide)

/-- Model of JS `Number.prototype.toString()` on a nonnegative safe
integer: its base-10 decimal rendering. -/
def jsToString (n : Nat) : String :=
  if n = 0 then "0" else String.mk ((digitsRevD n).reverse.map digitChar)

/-- Model of JS `parseInt` on the strings this code base feeds it: the
longest leading run of decimal digits is parsed (no digits gives `NaN`,
modelled as `none`). Sign prefixes and leading whitespace never occur on
these inputs. -/
def parseIntDec (s : String) : Option Nat :=
  let ds := s.toList.takeWhile (fun c => c.isDigit)
  if ds.isEmpty then none
  else some (ds.foldl (fun m c => m * 10 + (c.toNat - '0'.toNat)) 0)

theorem digitsRevD_zero : digitsRevD 0 = [] := by
  rw [digitsRevD]
  simp

theorem digitsRevD_ne_zero {n : Nat} (h : n ≠ 0) :
    digitsRevD n = (n % 10) :: digitsRevD (n / 10) := by
  rw [digitsRevD]
  simp [h]

theorem digitsRevD_lt_ten {n : Nat} : ∀ d ∈ digitsRevD n, d < 10 := by
  induction n using Nat.strong_induction_on with
  | _ n ih =>
    by_cases h : n = 0
    · subst h
      simp [digitsRevD_zero]
    · rw [digitsRevD_ne_zero h]
      intro d hd
      rcases List.mem_cons.mp hd with h1 | h2
      · subst h1
        exact Nat.mod_lt _ (by decide)
      · exact ih (n / 10) (Nat.div_lt_self (Nat.pos_of_ne_zero h) (by decide)) d h2

theorem digitChar_isDigit {d : Nat} (h : d < 10) : (digitChar d).isDigit = true := by
  interval_cases d <;> decide

theorem digitChar_toNat {d : Nat} (h : d < 10) :
    (digitChar d).toNat - '0'.toNat = d := by
  interval_cases d <;> decide

theorem foldl_digitsRevD (n : Nat) : ∀ a : Nat,
    ((digitsRevD n).reverse.map digitChar).foldl
      (fun m c => m * 10 + (c.toNat - '0'.toNat)) a
      = a * 10 ^ (digitsRevD n).length + n := by
  induction n using Nat.strong_induction_on with
  | _ n ih =>
    intro a
    by_cases h : n = 0
    · subst h
      simp [digitsRevD_zero]
    · rw [digitsRevD_ne_zero h]
      have hlt : n / 10 < n := Nat.div_lt_self (Nat.pos_of_ne_zero h) (by decide)
      have hstep := ih (n / 10) hlt a
      simp only [List.reverse_cons, List.map_append, List.foldl_append, hstep,
        List.map_cons, List.map_nil, List.foldl_cons, List.foldl_nil,
        List.length_cons]
      rw [digitChar_toNat (Nat.mod_lt _ (by decide))]
      have hdm : 10 * (n / 10) + n % 10 = n := Nat.div_add_mod n 10
      rw [pow_succ]
      have hx : a * (10 ^ (digitsRevD (n / 10)).length * 10)
          = a * 10 ^ (digitsRevD (n / 10)).length * 10 := by
        ring
      rw [hx]
      omega

theorem parseIntDec_jsToString (n : Nat) : parseIntDec (jsToString n) = some n := by
  by_cases h : n = 0
  · subst h
    decide
  · have hchars : ∀ c ∈ (digitsRevD n).reverse.map digitChar, c.isDigit = true := by
      intro c hc
      rcases List.mem_map.mp hc with ⟨d, hd, rfl⟩
      exact digitChar_isDigit (digitsRevD_lt_ten d (List.mem_reverse.mp hd))
    have htake : ((digitsRevD n).reverse.map digitChar).takeWhile
        (fun c => c.isDigit) = (digitsRevD n).reverse.map digitChar :=
      List.takeWhile_eq_self_iff.mpr hchars
    have hne : (digitsRevD n).reverse.map digitChar ≠ [] := by
      rw [digitsRevD_ne_zero h]
      simp
    unfold jsToString parseIntDec
    simp only [h, if_false]
    have hlist : (String.mk ((digitsRevD n).reverse.map digitChar)).toList
        = (digitsRevD n).reverse.map digitChar := rfl
    rw [hlist, htake]
    simp only [List.isEmpty_iff, hne, if_false]
    rw [foldl_digitsRevD n 0]
    simp

/-- Model of Node's `path.extname` on a slash-free name: the suffix from
the last `.`, except that a name with no `.`, or whose only `.` is its
first character, has extension `""`. -/
def extname (name : String) : String :=
  let rev := name.toList.reverse
  let pre := rev.takeWhile (fun c => c ≠ '.')
  if pre.length = rev.length then ""
  else if pre.length + 1 = rev.length then ""
  else String.mk ('.' :: pre.reverse)

/-- `getContentType` (streamingUploadService, lines 257-271): extension
to MIME type lookup with an `application/octet-stream` default. -/
def getContentType (fileExtension : String) : String :=
  let e := fileExtension.toLower
  if e = ".mp4" then "video/mp4"
  else if e = ".mov" then "video/quicktime"
  else if e = ".avi" then "video/x-msvideo"
  else if e = ".mkv" then "video/x-matroska"
  else if e = ".webm" then "video/webm"
  else if e = ".ogv" then "video/ogg"
  else if e = ".3gp" then "video/3gpp"
  else if e = ".flv" then "video/x-flv"
  else if e = ".wmv" then "video/x-ms-wmv"
  else "application/octet-stream"

theorem getContentType_ne_empty (e : String) : getContentType e ≠ "" := by
  unfold getContentType
  simp only []
  split <;> try simp_all
  split <;> try simp_all
  split <;> try simp_all
  split <;> try simp_all
  split <;> try simp_all
  split <;> try simp_all
  split <;> try simp_all
  split <;> try simp_all
  split <;> simp_all

/-- JS `x || fallback` on strings: the empty string is falsy. -/
def jsOr (s fallback : String) : String :=
  if s = "" then fallback else s

/-! ## JS `Map` model: association lists with functional update -/

/-- `Map.get(k)`. -/
def mapGet {α : Type} (m : List (String × α)) (k : String) : Option α :=
  (m.find? (fun p => p.1 == k)).map (fun p => p.2)

/-- `Map.set(k, v)` (functional): the new binding shadows any old one. -/
def mapSet {α : Type} (m : List (String × α)) (k : String) (v : α) :
    List (String × α) :=
  (k, v) :: m.filter (fun p => !(p.1 == k))

/-- `Map.has(k)`. -/
def mapHas {α : Type} (m : List (String × α)) (k : String) : Bool :=
  (mapGet m k).isSome

theorem mapGet_set_self {α : Type} (m : List (String × α)) (k : String) (v : α) :
    mapGet (mapSet m k v) k = some v := by
  simp [mapGet, mapSet, List.find?]

theorem find?_filter_ne {α : Type} (m : List (String × α)) (k k' : String)
    (h : k' ≠ k) :
    (m.filter (fun p => !(p.1 == k'))).find? (fun p => p.1 == k)
      = m.find? (fun p => p.1 == k) := by
  induction m with
  | nil => rfl
  | cons p t iht =>
    by_cases hp : p.1 = k'
    · have hpk : (p.1 == k) = false := by
        simp only [beq_eq_false_iff_ne, ne_eq]
        exact fun hk => h (hp ▸ hk)
      have hflt : (!(p.1 == k')) = false := by simp [hp]
      simp [List.filter_cons, hflt, List.find?_cons, hpk, iht]
    · have hflt : (!(p.1 == k')) = true := by simp [hp]
      by_cases hpk : p.1 = k
      · have hfind : (p.1 == k) = true := by simp [hpk]
        simp [List.filter_cons, hflt, List.find?_cons, hfind]
      · have hfind : (p.1 == k) = false := by simp [hpk]
        simp [List.filter_cons, hflt, List.find?_cons, hfind, iht]

theorem mapGet_set_ne {α : Type} (m : List (String × α)) (k k' : String) (v : α)
    (h : k' ≠ k) : mapGet (mapSet m k' v) k = mapGet m k := by
  have hbeq : (k' == k) = false := by simp [h]
  simp only [mapGet, mapSet, List.find?_cons, hbeq, cond_false]
  rw [find?_filter_ne m k k' h]

/-! ## Data model -/

/-- Lightweight upload summary appended to a user's upload list
(`{id, originalName, size, uploadDate, shareLink}`). -/
structure UploadSummary where
  id : String
  originalName : String
  size : Nat
  uploadDate : String
  shareLink : String
deriving DecidableEq, Repr

/-- A `userUploads` quota record (`{used, remaining, uploads}` as kept by
`checkUploadQuota` / `recordUpload` in the auth middleware). JS
`Math.max(0, remaining - size)` is modelled by truncated `Nat`
subtraction. -/
structure QuotaRec where
  used : Nat
  remaining : Nat
  uploads : List UploadSummary
deriving DecidableEq, Repr

/-- A `userStore` entry (the fields the upload pipeline touches). -/
structure UserData where
  username : String
  totalUploadSize : Nat
  uploads : List UploadSummary
deriving DecidableEq, Repr

/-- The authenticated user attached to a request (`req.user`). -/
structure AuthUser where
  id : String
  username : String
  avatar : Option String
  quota : Nat
deriving DecidableEq, Repr

/-- The multer-parsed file (`req.file`): only the fields the pipeline
reads. -/
structure UploadFile where
  originalname : String
  size : Nat
deriving DecidableEq, Repr

/-- Blob metadata tags attached at upload time (streamingUploadService
lines 55-68; all values are strings, as Azure metadata is a string map). -/
structure BlobMetadata where
  videoId : String
  originalName : String
  size : String
  contentType : String
  uploadDate : String
  uploadedBy : String
  uploaderUsername : String
  uploaderAvatar : String
  uploaderIp : String
  fileFormat : String
  isMKV : String
  downloadCount : String
deriving DecidableEq, Repr

/-- Blob service-side properties used by the rebuild routine and the
quota scan. Timestamps are modelled by their ISO-8601 rendering (the
JS `Date` ↔ ISO string correspondence is bijective on the values this
code produces). -/
structure BlobProps where
  contentLength : Nat
  contentType : String
  lastModified : String
deriving DecidableEq, Repr

/-- One listed blob (`listBlobsFlat({includeMetadata: true})` item). -/
structure BlobItem where
  name : String
  metadata : Option BlobMetadata
  properties : BlobProps
deriving DecidableEq, Repr

/-- A `videoStore` record (`videoData` object as built by the upload
services). `uploadDate` is the ISO rendering of the `Date` stored. -/
structure VideoData where
  id : String
  originalName : String
  blobUrl : String
  blobName : String
  containerName : String
  size : Nat
  contentType : String
  uploadDate : String
  downloadCount : Nat
  ip : String
  uploadedBy : String
  uploaderUsername : String
  uploaderAvatar : String
  fileFormat : String
  isMKV : Bool
deriving DecidableEq, Repr

/-- A value held in the `videoStore` map: video records, but the
metadata-storage route also inserts bare boolean sentinel flags under
`id + '_webhook_sent'` keys. -/
inductive StoreValue where
  | vid (v : VideoData)
  | flag (b : Bool)
deriving DecidableEq, Repr

/-- Azure account/container configuration (from `config.azure`). -/
structure AzureConfig where
  accountName : String
  containerName : String
deriving DecidableEq, Repr

/-! ## Quota tracker, strict variant (`UserQuotaService`)

The strict tracker computes usage by scanning blob storage; the scan is
modelled as an `Except` parameter (an `error` value is the `catch` path
of `calculateUserTotalSize`). -/

/-- `calculateUserTotalSize(userId)`: sums `contentLength` over blobs
whose `metadata.uploadedBy` equals the user, counting them; any scan
error yields `{totalUploadSize: 0, uploadCount: 0}`. -/
def calculateUserTotalSize (userId : String)
    (scan : Except String (List BlobItem)) : Nat × Nat :=
  match scan with
  | .error _ => (0, 0)
  | .ok blobs =>
    blobs.foldl
      (fun acc b =>
        match b.metadata with
        | some m =>
          if m.uploadedBy == userId then
            (acc.1 + b.properties.contentLength, acc.2 + 1)
          else acc
        | none => acc)
      (0, 0)

/-- The `getUserQuota` result (`{quota, totalUploadSize, uploadCount}`;
the `lastUpdated` timestamp is omitted as no claim mentions it). -/
structure UserQuotaInfo where
  quota : Nat
  totalUploadSize : Nat
  uploadCount : Nat
deriving DecidableEq, Repr

/-- `getUserQuota(userId)`. -/
def getUserQuota (userId : String) (scan : Except String (List BlobItem)) :
    UserQuotaInfo :=
  let usage := calculateUserTotalSize userId scan
  { quota := DEFAULT_QUOTA, totalUploadSize := usage.1, uploadCount := usage.2 }

/-- `getUserRemainingQuota(userId) = Math.max(0, quota -
totalUploadSize)` (truncated subtraction on `Nat`). -/
def getUserRemainingQuota (userId : String)
    (scan : Except String (List BlobItem)) : Nat :=
  (getUserQuota userId scan).quota - (getUserQuota userId scan).totalUploadSize

/-- `canUserUpload(userId, fileSize) = fileSize <= remainingQuota`. -/
def canUserUpload (userId : String) (scan : Except String (List BlobItem))
    (fileSize : Nat) : Bool :=
  decide (fileSize ≤ getUserRemainingQuota userId scan)

/-! ## Quota middleware (`checkUploadQuota` / `recordUpload`,
src/src/middleware/errorHandler.js auth section) and the `/upload`
route chain (part_005) -/

/-- Outcome of the `checkUploadQuota` middleware. -/
inductive QuotaCheckResult where
  | unauthorized
  | quotaRejected (quotaUsed quotaRemaining fileSize : Nat)
  | proceed
deriving DecidableEq, Repr

/-- `checkUploadQuota(req, res, next)`: 401 without a user; with no
`req.file` it calls `next()`; otherwise it rejects with 413 when
`userQuota.remaining < req.file.size`. -/
def checkUploadQuota (user : Option AuthUser)
    (userUploads : List (String × QuotaRec)) (file : Option UploadFile) :
    QuotaCheckResult :=
  match user with
  | none => .unauthorized
  | some u =>
    let userQuota := (mapGet userUploads u.id).getD
      { used := 0, remaining := u.quota, uploads := [] }
    match file with
    | none => .proceed
    | some f =>
      if userQuota.remaining < f.size then
        .quotaRejected userQuota.used userQuota.remaining f.size
      else .proceed

/-- Synchronous outcome of `POST /upload`. -/
inductive UploadRouteOutcome where
  | unauthorized
  | quotaRejected
  | uploadStarted
deriving DecidableEq, Repr

/-- The `/upload` middleware chain (part_005 lines 9-17): the
`checkUploadQuota` middleware is mounted before `upload.single('video')`,
the multer stage that parses the multipart body, so at quota-check time
`req.file` is still `undefined`; only after the check passes does multer
populate `req.file` and `videoController.uploadVideo` return
`{uploadId, progressUrl}` and spawn the async transfer. -/
def uploadRoute (user : Option AuthUser)
    (userUploads : List (String × QuotaRec)) (_file : UploadFile) :
    UploadRouteOutcome :=
  match checkUploadQuota user userUploads none with
  | .unauthorized => .unauthorized
  | .quotaRejected _ _ _ => .quotaRejected
  | .proceed => .uploadStarted

/-- `recordUpload(userId, uploadData)` result: the updated `userUploads`
and `userStore` maps. -/
structure RecordUploadResult where
  userUploads : List (String × QuotaRec)
  userStore : List (String × UserData)
deriving Repr

/-- `recordUpload` (errorHandler auth section, lines 190-216): reads the
current quota record (defaulting to `{used: 0, remaining: 5 GiB}`),
increments `used`, floors `remaining - size` at zero, appends the upload,
and mirrors the new totals into `userStore` when that user exists. -/
def recordUpload (userUploads : List (String × QuotaRec))
    (userStore : List (String × UserData)) (userId : String)
    (upl : UploadSummary) : RecordUploadResult :=
  let currentQuota := (mapGet userUploads userId).getD
    { used := 0, remaining := 5 * 1024 * 1024 * 1024, uploads := [] }
  let newUsed := currentQuota.used + upl.size
  let newRemaining := currentQuota.remaining - upl.size
  let userUploads2 := mapSet userUploads userId
    { used := newUsed, remaining := newRemaining,
      uploads := currentQuota.uploads ++ [upl] }
  let userStore2 :=
    match mapGet userStore userId with
    | none => userStore
    | some ud =>
      mapSet userStore userId
        { ud with totalUploadSize := newUsed, uploads := ud.uploads ++ [upl] }
  { userUploads := userUploads2, userStore := userStore2 }

/-- The quota record the middleware would see for a user (the same
`|| {used: 0, remaining: user-quota}` default as `checkUploadQuota`,
with the 5 GiB constant used where no request user is in scope). -/
def quotaRecOf (userUploads : List (String × QuotaRec)) (userId : String) :
    QuotaRec :=
  (mapGet userUploads userId).getD
    { used := 0, remaining := 5 * 1024 * 1024 * 1024, uploads := [] }

/-! ## Upload engine (streamingUploadService)

The random `videoId` and the timestamps are inputs of the model.
One engine call evaluates `new Date()` twice at two distinct instants:
the metadata tag's `uploadDate` when the upload options are built,
*before* the awaited transfer (`tagIso`), and the stored record's
`uploadDate` only after the transfer resolves (`recordIso`) — for a
large file these differ by the whole transfer duration. Transport
success or failure of the Azure transfer is an explicit outcome
parameter. -/

/-- `BlockBlobClient.url` for a blob of the configured container:
`https://{account}.blob.core.windows.net/{container}/{blobName}`. -/
def blobUrlOf (cfg : AzureConfig) (blobName : String) : String :=
  "https://" ++ cfg.accountName ++ ".blob.core.windows.net/"
    ++ cfg.containerName ++ "/" ++ blobName

/-- The metadata tags attached to the stored object (streaming path
lines 55-68; the buffer path lines 166-178 attaches the identical map).
`tagIso` is the `new Date().toISOString()` instant at which the upload
options are built — before the transfer is awaited. -/
def uploadMetadata (videoId originalName : String) (fileSize : Nat)
    (user : AuthUser) (ip tagIso : String) : BlobMetadata :=
  let fileExtension := extname originalName
  { videoId := videoId
    originalName := originalName
    size := jsToString fileSize
    contentType := getContentType fileExtension
    uploadDate := tagIso
    uploadedBy := user.id
    uploaderUsername := user.username
    uploaderAvatar := user.avatar.getD ""
    uploaderIp := ip
    fileFormat := fileExtension
    isMKV := if fileExtension.toLower = ".mkv" then "true" else "false"
    downloadCount := "0" }

/-- The `videoData` object built on engine success (streaming path lines
82-99; the buffer path lines 187-203 builds the identical record).
`recordIso` is the `new Date()` instant evaluated only after the awaited
transfer resolves — strictly later than the tag's `tagIso`. -/
def uploadVideoData (cfg : AzureConfig) (videoId originalName : String)
    (fileSize : Nat) (user : AuthUser) (ip recordIso : String) : VideoData :=
  let fileExtension := extname originalName
  let blobName := videoId ++ fileExtension
  { id := videoId
    originalName := originalName
    blobUrl := blobUrlOf cfg blobName
    blobName := blobName
    containerName := cfg.containerName
    size := fileSize
    contentType := getContentType fileExtension
    uploadDate := recordIso
    downloadCount := 0
    ip := ip
    uploadedBy := user.id
    uploaderUsername := user.username
    uploaderAvatar := user.avatar.getD ""
    fileFormat := fileExtension
    isMKV := fileExtension.toLower == ".mkv" }

/-- The stored object as the engine leaves it in the container: name
`videoId + ext`, the metadata tags carrying the pre-transfer `tagIso`
instant, and service-side properties (`lastModified` is the service's
commit time, after the transfer). -/
def storedBlobOfUpload (videoId originalName : String) (fileSize : Nat)
    (user : AuthUser) (ip tagIso lastModifiedIso : String) : BlobItem :=
  let fileExtension := extname originalName
  { name := videoId ++ fileExtension
    metadata := some (uploadMetadata videoId originalName fileSize user ip tagIso)
    properties :=
      { contentLength := fileSize
        contentType := getContentType fileExtension
        lastModified := lastModifiedIso } }

/-- Transport outcome of the Azure transfer: success, or an
irrecoverable fault carrying the transport error message, the number of
chunk pieces whose progress reports had already been forwarded before
the fault, whether a partially-uploaded object exists
(`blockBlobClient.exists()`), and whether the cleanup `delete()` itself
fails. -/
inductive TransportOutcome where
  | ok
  | fault (msg : String) (blocksDone : Nat) (partialBlobExists : Bool)
      (deleteFails : Bool)
deriving DecidableEq, Repr

/-- The engine's successful return value (`{videoId, videoData,
warning}`). -/
structure UploadOutputData where
  videoId : String
  videoData : VideoData
  warning : Option String
deriving DecidableEq, Repr

/-- Observable side effects of one engine invocation. `storedBlob` is
the object left in the container on success — its tags carry the
pre-transfer `tagIso` instant, its `lastModified` the service's commit
time. -/
structure EngineRun where
  videoStore : List (String × StoreValue)
  userStore : List (String × UserData)
  result : Except String UploadOutputData
  cleanupAttempted : Bool
  deleteCalled : Bool
  progress : List ProgressEvent
  storedBlob : Option BlobItem
deriving Repr

/-- The MKV warning string attached to `.mkv` uploads. -/
def mkvWarning (fileExtension : String) : Option String :=
  if fileExtension.toLower == ".mkv" then
    some ("MKV files may not play in all browsers. "
      ++ "Consider converting to MP4 for better compatibility.")
  else none

/-- `uploadVideoStreamToAzure` (lines 17-143): the metadata tags are
built with the pre-transfer `tagIso` instant; on success the engine
stores the video record (whose `uploadDate` is the post-transfer
`recordIso` instant), pushes the upload onto the uploader's `userStore`
entry and adds the size to `totalUploadSize`; on an irrecoverable
transport fault the progress reports forwarded before the fault stand,
and the engine attempts cleanup of the partial blob (calling `delete()`
when the blob exists, and swallowing any cleanup failure) and rethrows
`'Upload failed: ' + message`. -/
def uploadVideoStreamToAzure (cfg : AzureConfig)
    (videoStore : List (String × StoreValue))
    (userStore : List (String × UserData)) (videoId originalName : String)
    (fileSize : Nat) (user : AuthUser) (ip tagIso recordIso : String)
    (outcome : TransportOutcome) : EngineRun :=
  let fileExtension := extname originalName
  match outcome with
  | .ok =>
    let videoData := uploadVideoData cfg videoId originalName fileSize user ip
      recordIso
    let videoStore2 := mapSet videoStore videoId (.vid videoData)
    let userStore2 :=
      match mapGet userStore user.id with
      | none => userStore
      | some ud =>
        mapSet userStore user.id
          { ud with
            uploads := ud.uploads
              ++ [{ id := videoId, originalName := originalName,
                    size := fileSize, uploadDate := recordIso,
                    shareLink := "/v/" ++ videoId }]
            totalUploadSize := ud.totalUploadSize + fileSize }
    { videoStore := videoStore2
      userStore := userStore2
      result := .ok { videoId := videoId, videoData := videoData,
                      warning := mkvWarning fileExtension }
      cleanupAttempted := false
      deleteCalled := false
      progress := progressEvents fileSize
      storedBlob := some (storedBlobOfUpload videoId originalName fileSize
        user ip tagIso recordIso) }
  | .fault msg blocksDone partialBlobExists _deleteFails =>
    { videoStore := videoStore
      userStore := userStore
      result := .error ("Upload failed: " ++ msg)
      cleanupAttempted := true
      deleteCalled := partialBlobExists
      progress := (progressEvents fileSize).take blocksDone
      storedBlob := none }

/-- `uploadVideoBufferToAzure` (lines 149-218): single whole-object
upload; stores the same record on success but updates no user statistics,
and its `catch` performs no cleanup before rethrowing
`'Upload failed: ' + message`. The progress callback passed by the
caller is dropped (the function takes only four parameters). -/
def uploadVideoBufferToAzure (cfg : AzureConfig)
    (videoStore : List (String × StoreValue))
    (userStore : List (String × UserData)) (videoId originalName : String)
    (fileSize : Nat) (user : AuthUser) (ip tagIso recordIso : String)
    (outcome : TransportOutcome) : EngineRun :=
  let fileExtension := extname originalName
  match outcome with
  | .ok =>
    let videoData := uploadVideoData cfg videoId originalName fileSize user ip
      recordIso
    { videoStore := mapSet videoStore videoId (.vid videoData)
      userStore := userStore
      result := .ok { videoId := videoId, videoData := videoData,
                      warning := mkvWarning fileExtension }
      cleanupAttempted := false
      deleteCalled := false
      progress := []
      storedBlob := some (storedBlobOfUpload videoId originalName fileSize
        user ip tagIso recordIso) }
  | .fault msg _ _ _ =>
    { videoStore := videoStore
      userStore := userStore
      result := .error ("Upload failed: " ++ msg)
      cleanupAttempted := false
      deleteCalled := false
      progress := []
      storedBlob := none }

/-- `uploadVideoToAzure` (videoService, part_000 lines 14-61): size-based
dispatch between the streaming and the buffer engine. -/
def uploadVideoToAzure (cfg : AzureConfig)
    (videoStore : List (String × StoreValue))
    (userStore : List (String × UserData)) (videoId originalName : String)
    (fileSize : Nat) (user : AuthUser) (ip tagIso recordIso : String)
    (outcome : TransportOutcome) : EngineRun :=
  if shouldUseStreamingUpload fileSize then
    uploadVideoStreamToAzure cfg videoStore userStore videoId originalName
      fileSize user ip tagIso recordIso outcome
  else
    uploadVideoBufferToAzure cfg videoStore userStore videoId originalName
      fileSize user ip tagIso recordIso outcome

/-! ## Progress broadcast channel (part_004) and the orchestrator
(`uploadVideoAsync`, videoController lines 40-121) -/

/-- A server-push message on one upload's progress channel. -/
inductive SseMsg where
  | start (filename : String) (size : Nat)
  | progress (e : ProgressEvent)
  | error (message : String)
  | complete (shareLink downloadUrl : String) (size : Nat)
  | close
deriving DecidableEq, Repr

/-- `broadcastProgress(uploadId, data)` delivers the message to every
response currently subscribed to that uploadId (and silently drops it
when none are). Subscribers are identified by opaque ids. -/
def deliverAll (subscribers : List String) (msg : SseMsg) :
    List (String × SseMsg) :=
  subscribers.map (fun s => (s, msg))

/-- JS `s.includes(pat)` for a nonempty pattern, via `splitOn`. -/
def containsSub (s pat : String) : Bool :=
  decide ((s.splitOn pat).length > 1)

/-- The sanitized error message broadcast by `uploadVideoAsync`'s catch
block (videoController lines 103-111). -/
def sanitizeError (msg : String) : String :=
  if containsSub msg "File size too large" then
    "File too large. Maximum size is 1GB."
  else if containsSub msg "Invalid video file" then
    "Invalid video file format."
  else if containsSub msg "Azure upload failed" then
    "File upload failed. Please try again."
  else "Upload failed. Please try again."

/-- One observable side-effect step of the orchestration pipeline, in
execution order. -/
inductive Action where
  | broadcastStart
  | progressBroadcast
  | persistRecord
  | updateUserStats
  | cleanupAttempt
  | webhookAttempt
  | updateQuota
  | broadcastComplete
  | broadcastClose
  | broadcastError
deriving DecidableEq, Repr

/-- Everything observable about one `uploadVideoAsync` run. -/
structure OrchestratorRun where
  videoStore : List (String × StoreValue)
  userStore : List (String × UserData)
  userUploads : List (String × QuotaRec)
  delivered : List (String × SseMsg)
  actions : List Action
  cleanupAttempted : Bool
  deleteCalled : Bool
  engineError : Option String
deriving Repr

/-- Engine-internal actions in order: progress broadcasts during the
transfer, then (on success) the `videoStore.set` persist and — on the
streaming path only — the `userStore` statistics update; on failure the
progress broadcasts already forwarded, then the cleanup attempt. -/
def engineActions (fileSize : Nat) (outcome : TransportOutcome) : List Action :=
  match outcome with
  | .ok =>
    (progressEvents fileSize).map (fun _ => .progressBroadcast)
      ++ [.persistRecord]
      ++ (if shouldUseStreamingUpload fileSize then [.updateUserStats] else [])
  | .fault _ blocksDone _ _ =>
    ((progressEvents fileSize).take blocksDone).map
        (fun _ => .progressBroadcast)
      ++ (if shouldUseStreamingUpload fileSize then [.cleanupAttempt] else [])

/-- `uploadVideoAsync(file, user, ip, uploadId)` (videoController lines
40-121): broadcasts a start event, runs the engine forwarding progress,
and on success sends the Discord webhook (its failure swallowed), records
the upload for quota tracking, and completes the channel (a terminal
`complete` event, then `close`); on engine failure it broadcasts a
sanitized `error` event and mutates nothing. `webhookOk` is the webhook
collaborator's outcome. -/
def uploadVideoAsync (cfg : AzureConfig)
    (videoStore : List (String × StoreValue))
    (userStore : List (String × UserData))
    (userUploads : List (String × QuotaRec)) (subscribers : List String)
    (file : UploadFile) (user : AuthUser) (ip : String)
    (videoId tagIso recordIso baseUrl : String) (outcome : TransportOutcome)
    (_webhookOk : Bool) : OrchestratorRun :=
  let startDelivered := deliverAll subscribers (.start file.originalname file.size)
  let er := uploadVideoToAzure cfg videoStore userStore videoId
    file.originalname file.size user ip tagIso recordIso outcome
  let progressDelivered :=
    er.progress.flatMap (fun e => deliverAll subscribers (.progress e))
  match er.result with
  | .ok out =>
    let shareLink := baseUrl ++ "/v/" ++ out.videoId
    let downloadLink := baseUrl ++ "/download/" ++ out.videoId
    let recorded := recordUpload userUploads er.userStore user.id
      { id := out.videoId, originalName := out.videoData.originalName,
        size := out.videoData.size, uploadDate := out.videoData.uploadDate,
        shareLink := shareLink }
    { videoStore := er.videoStore
      userStore := recorded.userStore
      userUploads := recorded.userUploads
      delivered := startDelivered ++ progressDelivered
        ++ deliverAll subscribers
            (.complete shareLink downloadLink out.videoData.size)
        ++ deliverAll subscribers .close
      actions := [.broadcastStart] ++ engineActions file.size outcome
        ++ [.webhookAttempt, .updateQuota, .broadcastComplete, .broadcastClose]
      cleanupAttempted := er.cleanupAttempted
      deleteCalled := er.deleteCalled
      engineError := none }
  | .error msg =>
    { videoStore := er.videoStore
      userStore := er.userStore
      userUploads := userUploads
      delivered := startDelivered ++ progressDelivered
        ++ deliverAll subscribers (.error (sanitizeError msg))
      actions := [.broadcastStart] ++ engineActions file.size outcome
        ++ [.broadcastError]
      cleanupAttempted := er.cleanupAttempted
      deleteCalled := er.deleteCalled
      engineError := some msg }

/-! ## Catalog rebuild (`rebuildFromAzureStorage`, part_000 lines
180-221) -/

/-- JS `parseInt(s) || fallback`: `0` and `NaN` are falsy. -/
def parseIntOr (s : String) (fallback : Nat) : Nat :=
  match parseIntDec s with
  | some n => if n = 0 then fallback else n
  | none => fallback

/-- The `videoData` reconstructed from one listed blob, or `none` when
the blob carries no `videoId` tag (`if (blob.metadata &&
blob.metadata.videoId)`). The `new Date(metadata.uploadDate)` value is a
`Date` object and hence always truthy, so the `lastModified` fallback is
unreachable. -/
def rebuildVideoData (cfg : AzureConfig) (blob : BlobItem) : Option VideoData :=
  match blob.metadata with
  | none => none
  | some m =>
    if m.videoId = "" then none
    else some
      { id := m.videoId
        originalName := jsOr m.originalName blob.name
        blobUrl := "https://" ++ cfg.accountName ++ ".blob.core.windows.net/"
          ++ cfg.containerName ++ "/" ++ blob.name
        blobName := blob.name
        containerName := cfg.containerName
        size := parseIntOr m.size blob.properties.contentLength
        contentType := jsOr m.contentType blob.properties.contentType
        uploadDate := m.uploadDate
        downloadCount := parseIntOr m.downloadCount 0
        ip := jsOr m.uploaderIp "Unknown"
        uploadedBy := jsOr m.uploadedBy "Unknown"
        uploaderUsername := jsOr m.uploaderUsername "Unknown User"
        uploaderAvatar := jsOr m.uploaderAvatar ""
        fileFormat := jsOr m.fileFormat (extname blob.name)
        isMKV := m.isMKV == "true" }

/-! ## Metadata-storage completion route
(`POST /store-video-metadata`, part_006) and the clips listing
(`getAllClips`, videoController clips section) -/

/-- The `store-video-metadata` route's own `getContentType(filename)`:
keyed by the piece after the last `.` of the whole filename, lowercased,
defaulting to `video/mp4`. -/
def getContentTypeFromName (filename : String) : String :=
  let e := ((filename.splitOn ".").getLast?.getD "").toLower
  let e := if e = "" then "mp4" else e
  if e = "mp4" then "video/mp4"
  else if e = "avi" then "video/x-msvideo"
  else if e = "mov" then "video/quicktime"
  else if e = "wmv" then "video/x-ms-wmv"
  else if e = "flv" then "video/x-flv"
  else if e = "webm" then "video/webm"
  else if e = "mkv" then "video/x-matroska"
  else if e = "m4v" then "video/x-m4v"
  else "video/mp4"

/-- `originalName.split('.').pop()?.toLowerCase() || 'mp4'`. -/
def popExtension (filename : String) : String :=
  let e := ((filename.splitOn ".").getLast?.getD "").toLower
  if e = "" then "mp4" else e

/-- Request body of `POST /store-video-metadata` (after JWT
verification, which yields `user`). -/
structure StoreMetadataReq where
  videoId : String
  blobName : String
  blobUrl : String
  size : Nat
  originalName : String
  user : AuthUser
  ip : String
  nowIso : String
deriving Repr

/-- Result of one `store-video-metadata` invocation: the updated stores
and how many webhook sends were attempted (0 or 1). -/
structure StoreMetadataRun where
  videoStore : List (String × StoreValue)
  userStore : List (String × UserData)
  userUploads : List (String × QuotaRec)
  webhookAttempts : Nat
deriving Repr

/-- The `videoData` object the route stores (part_006 lines 39-55). -/
def storeMetadataVideoData (req : StoreMetadataReq) : VideoData :=
  let fileExtension := popExtension req.originalName
  let isMKV := fileExtension == "mkv"
    || getContentTypeFromName req.originalName == "video/x-matroska"
  { id := req.videoId
    originalName := req.originalName
    blobUrl := req.blobUrl
    blobName := req.blobName
    containerName := "videos"
    size := req.size
    contentType := getContentTypeFromName req.originalName
    uploadDate := req.nowIso
    downloadCount := 0
    ip := req.ip
    uploadedBy := req.user.id
    uploaderUsername := req.user.username
    uploaderAvatar := req.user.avatar.getD ""
    fileFormat := "." ++ fileExtension
    isMKV := isMKV }

/-- `POST /store-video-metadata` (part_006 lines 9-110): stores the
video record, records the upload for quota, then — only when no
`videoId + '_webhook_sent'` sentinel is in the video store — attempts the
Discord webhook, and marks the sentinel only when that send succeeded
(`webhookOk`). -/
def storeVideoMetadata (videoStore : List (String × StoreValue))
    (userStore : List (String × UserData))
    (userUploads : List (String × QuotaRec)) (req : StoreMetadataReq)
    (baseUrl : String) (webhookOk : Bool) : StoreMetadataRun :=
  let videoData := storeMetadataVideoData req
  let videoStore2 := mapSet videoStore req.videoId (.vid videoData)
  let shareLink := baseUrl ++ "/v/" ++ req.videoId
  let recorded := recordUpload userUploads userStore req.user.id
    { id := req.videoId, originalName := req.originalName, size := req.size,
      uploadDate := req.nowIso, shareLink := shareLink }
  let isNewVideo := !(mapHas videoStore2 (req.videoId ++ "_webhook_sent"))
  if isNewVideo then
    if webhookOk then
      { videoStore := mapSet videoStore2 (req.videoId ++ "_webhook_sent")
          (.flag true)
        userStore := recorded.userStore
        userUploads := recorded.userUploads
        webhookAttempts := 1 }
    else
      { videoStore := videoStore2
        userStore := recorded.userStore
        userUploads := recorded.userUploads
        webhookAttempts := 1 }
  else
    { videoStore := videoStore2
      userStore := recorded.userStore
      userUploads := recorded.userUploads
      webhookAttempts := 0 }

/-- Two sequential invocations of the completion route for the same
request (duplicate delivery), with per-invocation webhook outcomes;
returns the final state and the total number of webhook attempts. -/
def storeVideoMetadataTwice (videoStore : List (String × StoreValue))
    (userStore : List (String × UserData))
    (userUploads : List (String × QuotaRec)) (req : StoreMetadataReq)
    (baseUrl : String) (webhookOk1 webhookOk2 : Bool) : StoreMetadataRun :=
  let r1 := storeVideoMetadata videoStore userStore userUploads req baseUrl
    webhookOk1
  let r2 := storeVideoMetadata r1.videoStore r1.userStore r1.userUploads req
    baseUrl webhookOk2
  { r2 with webhookAttempts := r1.webhookAttempts + r2.webhookAttempts }

/-- A clips-listing entry (`getAllClips`, videoController clips section).
Fields read off a sentinel flag value are JS `undefined`, modelled as
`none`. -/
structure ClipEntry where
  id : String
  originalName : Option String
  size : Option Nat
  uploadDate : Option String
  shareLink : String
deriving DecidableEq, Repr

/-- `getAllClips`: iterates `videoStore.entries()` — every entry,
sentinel flags included — and builds a clip object per entry. (The
date-descending sort performed before responding permutes but never
removes entries and is omitted here.) -/
def getAllClips (videoStore : List (String × StoreValue)) (baseUrl : String) :
    List ClipEntry :=
  videoStore.map (fun p =>
    match p.2 with
    | .vid v =>
      { id := p.1, originalName := some v.originalName, size := some v.size,
        uploadDate := some v.uploadDate,
        shareLink := baseUrl ++ "/v/" ++ p.1 }
    | .flag _ =>
      { id := p.1, originalName := none, size := none, uploadDate := none,
        shareLink := baseUrl ++ "/v/" ++ p.1 })

/-! ## Claim C1 — synchronous quota rejection -/

/-- C1: the claim says an authenticated upload whose declared size
exceeds the remaining quota is rejected synchronously with a
QuotaExceededError before the transfer starts. On the spec's own
scenario (quota 5 000 000 000, used 4 999 000 000, a 2 000 000-byte
file) the `/upload` chain instead starts the upload: `checkUploadQuota`
is mounted before the multer stage, so it sees `req.file` undefined and
calls `next()` without checking anything — even though the same
middleware, given the parsed file, would reject exactly as the claim
describes. -/
theorem C1_quota_gate_not_enforced :
    uploadRoute (some ⟨"u1", "alice", none, 5000000000⟩)
      [("u1", ⟨4999000000, 1000000, []⟩)] ⟨"clip.mp4", 2000000⟩
      = .uploadStarted
    ∧ checkUploadQuota (some ⟨"u1", "alice", none, 5000000000⟩)
      [("u1", ⟨4999000000, 1000000, []⟩)] (some ⟨"clip.mp4", 2000000⟩)
      = .quotaRejected 4999000000 1000000 2000000 := by
  decide

/-! ## Claim C2 — transfer strategy of the engine -/

/-- C2 counterexample: at exactly the 50 MB threshold the claim demands
a chunked transfer of `ceil(S/C) = 1` block with parallelism 4, but the
engine performs a single whole-object upload (`shouldUseStreamingUpload`
is a strict comparison); and just above the threshold the chunked plan's
bound is the positional max-concurrency argument 2, not
`MAX_CONCURRENT_UPLOADS = 4`. -/
theorem C2_counterexample :
    uploadPlanOf (50 * 1024 * 1024) = .single
    ∧ uploadPlanOf (50 * 1024 * 1024) ≠ .chunked 1 MAX_CONCURRENT_UPLOADS 1
    ∧ uploadPlanOf (50 * 1024 * 1024 + 1) = .chunked 2 2 1
    ∧ uploadPlanOf (50 * 1024 * 1024 + 1) ≠ .chunked 2 MAX_CONCURRENT_UPLOADS 1 := by
  decide

/-- C2 (amended): uploads of at most 50 MB are one whole-object upload;
uploads strictly above 50 MB are split into `ceil(S / 50MB)` fixed-size
blocks uploaded with bounded parallelism 2, followed by one atomic
commit. -/
theorem C2_transfer_plan (fileSize : Nat) :
    (fileSize ≤ STREAMING_THRESHOLD → uploadPlanOf fileSize = .single)
    ∧ (STREAMING_THRESHOLD < fileSize →
        uploadPlanOf fileSize
          = .chunked ((fileSize + CHUNK_SIZE - 1) / CHUNK_SIZE) 2 1) := by
  constructor
  · intro h
    have hs : shouldUseStreamingUpload fileSize = false := by
      simp only [shouldUseStreamingUpload, decide_eq_false_iff_not, not_lt]
      simpa [STREAMING_THRESHOLD] using h
    simp [uploadPlanOf, hs]
  · intro h
    have hs : shouldUseStreamingUpload fileSize = true := by
      simp only [shouldUseStreamingUpload, decide_eq_true_eq]
      simpa [STREAMING_THRESHOLD] using h
    simp [uploadPlanOf, hs, uploadStreamPlan]

/-- C2 witness: a 1 000 000-byte upload is single-shot; a 120 MB upload
is 3 blocks, concurrency 2, one commit. -/
theorem C2_transfer_plan_witness :
    uploadPlanOf 1000000 = .single
    ∧ uploadPlanOf (120 * 1024 * 1024) = .chunked 3 2 1 := by
  constructor
  · exact (C2_transfer_plan 1000000).1 (by decide)
  · have h := (C2_transfer_plan (120 * 1024 * 1024)).2 (by decide)
    rw [h]
    decide

/-! ## Claim C8 — quota tracker semantics -/

/-- C8 counterexample: with a quota record whose `remaining` is `0`, a
successful `recordUpload` of 100 bytes leaves `remaining` at `0`: it
does not decrease by exactly the recorded size (the stored value floors
at zero). -/
theorem C8_counterexample :
    (quotaRecOf [("u1", ⟨5368709120, 0, []⟩)] "u1").remaining = 0
    ∧ (quotaRecOf (recordUpload [("u1", ⟨5368709120, 0, []⟩)] [] "u1"
        ⟨"vid1", "clip.mp4", 100, "2026-01-01T00:00:00.000Z", "/v/vid1"⟩).userUploads
        "u1").remaining = 0
    ∧ (quotaRecOf (recordUpload [("u1", ⟨5368709120, 0, []⟩)] [] "u1"
        ⟨"vid1", "clip.mp4", 100, "2026-01-01T00:00:00.000Z", "/v/vid1"⟩).userUploads
        "u1").remaining + 100
      ≠ (quotaRecOf [("u1", ⟨5368709120, 0, []⟩)] "u1").remaining := by
  decide

/-- C8 (amended): `canUserUpload(user, size)` returns false iff
`size > remaining(user)` with `remaining = max(0, quota - used)`; and a
successful `recordUpload` whose size does not exceed the record's
current `remaining` decreases `remaining` by exactly that size (larger
sizes floor the stored value at zero). -/
theorem C8_quota_semantics (userId : String)
    (scan : Except String (List BlobItem)) (size : Nat)
    (userUploads : List (String × QuotaRec))
    (userStore : List (String × UserData)) (upl : UploadSummary)
    (h : upl.size ≤ (quotaRecOf userUploads userId).remaining) :
    (canUserUpload userId scan size = false
      ↔ getUserRemainingQuota userId scan < size)
    ∧ (quotaRecOf (recordUpload userUploads userStore userId upl).userUploads
          userId).remaining + upl.size
      = (quotaRecOf userUploads userId).remaining := by
  constructor
  · simp only [canUserUpload, decide_eq_false_iff_not, not_le]
  · simp only [recordUpload, quotaRecOf, mapGet_set_self, Option.getD_some]
    exact Nat.sub_add_cancel h

/-- C8 witness: scanning an empty container, a 10-byte upload is allowed
(not rejected) and recording 100 bytes against a record with 1000
remaining leaves exactly 900. -/
theorem C8_quota_semantics_witness :
    (canUserUpload "u1" (.ok []) 10 = false ↔ getUserRemainingQuota "u1" (.ok []) < 10)
    ∧ (quotaRecOf (recordUpload [("u1", ⟨0, 1000, []⟩)] [] "u1"
          ⟨"vid1", "clip.mp4", 100, "2026-01-01T00:00:00.000Z", "/v/vid1"⟩).userUploads
          "u1").remaining + 100
      = (quotaRecOf [("u1", ⟨0, 1000, []⟩)] "u1").remaining :=
  C8_quota_semantics "u1" (.ok []) 10 [("u1", ⟨0, 1000, []⟩)] []
    ⟨"vid1", "clip.mp4", 100, "2026-01-01T00:00:00.000Z", "/v/vid1"⟩ (by decide)

/-! ## Claim C10 — strict quota tracker fails open on storage errors -/

/-- C10: when the storage scan fails, `calculateUserTotalSize` returns
zero usage, so `getUserQuota` reports zero and `canUserUpload` accepts
every size up to the full 5 GiB default quota. -/
theorem C10_fails_open (userId err : String) (size : Nat)
    (h : size ≤ DEFAULT_QUOTA) :
    (getUserQuota userId (.error err)).totalUploadSize = 0
    ∧ (getUserQuota userId (.error err)).uploadCount = 0
    ∧ canUserUpload userId (.error err) size = true := by
  refine ⟨rfl, rfl, ?_⟩
  simp only [canUserUpload, decide_eq_true_eq, getUserRemainingQuota,
    getUserQuota, calculateUserTotalSize, DEFAULT_QUOTA] at h ⊢
  omega

/-- C10 witness: with a failed scan, even an upload of the full 5 GiB
quota is accepted. -/
theorem C10_fails_open_witness :
    (getUserQuota "u1" (.error "connection refused")).totalUploadSize = 0
    ∧ (getUserQuota "u1" (.error "connection refused")).uploadCount = 0
    ∧ canUserUpload "u1" (.error "connection refused")
        (5 * 1024 * 1024 * 1024) = true :=
  C10_fails_open "u1" "connection refused" (5 * 1024 * 1024 * 1024) (by decide)

/-! ## Claim C6 — progress event stream -/

theorem numChunks_mul_ge (fileSize : Nat) :
    fileSize ≤ numChunks fileSize * CHUNK_SIZE := by
  unfold numChunks CHUNK_SIZE
  have h := Nat.div_add_mod (fileSize + 50 * 1024 * 1024 - 1) (50 * 1024 * 1024)
  have h2 : (fileSize + 50 * 1024 * 1024 - 1) % (50 * 1024 * 1024)
      < 50 * 1024 * 1024 := Nat.mod_lt _ (by decide)
  omega

/-- C6 counterexample: for a 115 300 000-byte upload the first forwarded
progress event displays 46 %, while `bytesUploaded/totalBytes*100`
rounded to the nearest integer is 45 % — the source rounds to one
decimal (`toFixed(1)`) before `Math.round`, which shifts values in
`[n + 0.45, n + 0.5)` up by one. -/
theorem C6_counterexample :
    ¬ (∀ e ∈ progressEvents 115300000,
        e.progress = directRoundPercent e.bytesUploaded 115300000) := by
  decide

/-- C6 (amended): for every upload, the forwarded progress events are
monotonically non-decreasing in `bytesUploaded`, the final event (when
any are emitted; the small-file single-shot path emits none) reports
`bytesUploaded = totalBytes`, and each event's displayed percentage is
`bytesUploaded/totalBytes*100` rounded first to one decimal and then to
the nearest integer. -/
theorem C6_progress_events (fileSize : Nat) :
    (progressEvents fileSize).Pairwise
      (fun a b => a.bytesUploaded ≤ b.bytesUploaded)
    ∧ (∀ e, (progressEvents fileSize).getLast? = some e →
        e.bytesUploaded = fileSize)
    ∧ (∀ e ∈ progressEvents fileSize,
        e.totalBytes = fileSize
        ∧ e.progress = displayedPercent e.bytesUploaded fileSize) := by
  by_cases hs : shouldUseStreamingUpload fileSize = true
  · refine ⟨?_, ?_, ?_⟩
    · simp only [progressEvents, hs, if_true]
      refine List.Pairwise.map _ ?_ (List.pairwise_lt_range _)
      intro a b hab
      show chunkBytes fileSize (a + 1) ≤ chunkBytes fileSize (b + 1)
      unfold chunkBytes
      exact min_le_min (Nat.mul_le_mul_right _ (by omega)) le_rfl
    · intro e he
      simp only [progressEvents, hs, if_true] at he
      have hn : numChunks fileSize ≠ 0 := by
        have hpos : 50 * 1024 * 1024 < fileSize := by
          simpa [shouldUseStreamingUpload] using hs
        have h1 : 1 ≤ (fileSize + 50 * 1024 * 1024 - 1) / (50 * 1024 * 1024) :=
          (Nat.one_le_div_iff (by decide)).mpr (by omega)
        unfold numChunks CHUNK_SIZE
        omega
      obtain ⟨m, hm⟩ := Nat.exists_eq_succ_of_ne_zero hn
      rw [hm, List.range_succ, List.map_append, List.map_cons, List.map_nil,
        List.getLast?_concat] at he
      injection he with he2
      rw [← he2]
      show chunkBytes fileSize (m + 1) = fileSize
      have h1 : fileSize ≤ (m + 1) * CHUNK_SIZE := by
        have := numChunks_mul_ge fileSize
        rw [hm] at this
        exact this
      unfold chunkBytes
      exact Nat.min_eq_right h1
    · intro e he
      simp only [progressEvents, hs, if_true, List.mem_map] at he
      obtain ⟨k, _, rfl⟩ := he
      exact ⟨rfl, rfl⟩
  · have hs2 : shouldUseStreamingUpload fileSize = false := by
      simpa using hs
    simp [progressEvents, hs2]

/-- C6 witness: for the 115 300 000-byte upload the last of the three
forwarded events reports all 115 300 000 bytes uploaded. -/
theorem C6_progress_events_witness :
    ({ progress := 100, bytesUploaded := 115300000,
       totalBytes := 115300000 } : ProgressEvent).bytesUploaded
      = 115300000 :=
  (C6_progress_events 115300000).2.1 _ (by decide)

/-! ## Claim C7 — order of completion side effects -/

/-- C7 counterexample: on a concrete successful upload the action trace
is start, persist, webhook, quota update, complete, close — the webhook
fires before the quota update, so the claimed
persist → quota → webhook → complete order does not hold. -/
theorem C7_counterexample :
    (uploadVideoAsync ⟨"acct", "videos"⟩ [] [] [] [] ⟨"clip.mp4", 1000⟩
        ⟨"u1", "alice", none, 5368709120⟩ "1.2.3.4" "vid1"
        "2026-01-01T00:00:00.000Z" "2026-01-01T00:00:02.000Z"
        "http://localhost:8000" .ok true).actions
      = [.broadcastStart, .persistRecord, .webhookAttempt, .updateQuota,
         .broadcastComplete, .broadcastClose]
    ∧ (uploadVideoAsync ⟨"acct", "videos"⟩ [] [] [] [] ⟨"clip.mp4", 1000⟩
        ⟨"u1", "alice", none, 5368709120⟩ "1.2.3.4" "vid1"
        "2026-01-01T00:00:00.000Z" "2026-01-01T00:00:02.000Z"
        "http://localhost:8000" .ok true).actions.indexOf
        .webhookAttempt
      < (uploadVideoAsync ⟨"acct", "videos"⟩ [] [] [] [] ⟨"clip.mp4", 1000⟩
        ⟨"u1", "alice", none, 5368709120⟩ "1.2.3.4" "vid1"
        "2026-01-01T00:00:00.000Z" "2026-01-01T00:00:02.000Z"
        "http://localhost:8000" .ok true).actions.indexOf
        .updateQuota := by
  decide

/-- C7 (amended): on every successful engine completion the orchestrator
broadcasts the start event, forwards the engine's progress broadcasts,
persists the VideoRecord (the streaming engine also updating the user's
statistics), then fires the webhook notification, then updates the
QuotaRecord, then broadcasts the terminal complete event and the close
signal — i.e. the webhook precedes the quota update. -/
theorem C7_side_effect_order (cfg : AzureConfig)
    (videoStore : List (String × StoreValue))
    (userStore : List (String × UserData))
    (userUploads : List (String × QuotaRec)) (subscribers : List String)
    (file : UploadFile) (user : AuthUser)
    (ip videoId tagIso recordIso baseUrl : String) (webhookOk : Bool) :
    (uploadVideoAsync cfg videoStore userStore userUploads subscribers file
        user ip videoId tagIso recordIso baseUrl .ok webhookOk).actions
      = [.broadcastStart]
        ++ (progressEvents file.size).map (fun _ => .progressBroadcast)
        ++ [.persistRecord]
        ++ (if shouldUseStreamingUpload file.size then [.updateUserStats]
            else [])
        ++ [.webhookAttempt, .updateQuota, .broadcastComplete,
            .broadcastClose] := by
  by_cases hs : shouldUseStreamingUpload file.size = true
  · simp [uploadVideoAsync, uploadVideoToAzure, hs, uploadVideoStreamToAzure,
      engineActions]
  · have hs2 : shouldUseStreamingUpload file.size = false := by simpa using hs
    simp [uploadVideoAsync, uploadVideoToAzure, hs2, uploadVideoBufferToAzure,
      engineActions, progressEvents]

/-! ## Claim C3 — failure path of a chunked upload -/

/-- C3: when a block upload or the commit of a chunked upload fails
irrecoverably (and a partial object exists), the run creates no video
record, mutates no quota state, delivers the sanitized error event to
every subscriber, calls delete on the partial object, and surfaces
`'Upload failed: ' + transport message` — whether or not the cleanup
delete itself fails. -/
theorem C3_failure_cleanup (cfg : AzureConfig)
    (videoStore : List (String × StoreValue))
    (userStore : List (String × UserData))
    (userUploads : List (String × QuotaRec)) (subscribers : List String)
    (file : UploadFile) (user : AuthUser)
    (ip videoId tagIso recordIso baseUrl : String) (webhookOk : Bool)
    (msg : String) (blocksDone : Nat) (deleteFails : Bool)
    (hstream : STREAMING_THRESHOLD < file.size) :
    (uploadVideoAsync cfg videoStore userStore userUploads subscribers file
        user ip videoId tagIso recordIso baseUrl
        (.fault msg blocksDone true deleteFails) webhookOk).videoStore
      = videoStore
    ∧ (uploadVideoAsync cfg videoStore userStore userUploads subscribers file
        user ip videoId tagIso recordIso baseUrl
        (.fault msg blocksDone true deleteFails) webhookOk).userStore
      = userStore
    ∧ (uploadVideoAsync cfg videoStore userStore userUploads subscribers file
        user ip videoId tagIso recordIso baseUrl
        (.fault msg blocksDone true deleteFails) webhookOk).userUploads
      = userUploads
    ∧ (∀ s ∈ subscribers,
        (s, SseMsg.error (sanitizeError ("Upload failed: " ++ msg)))
          ∈ (uploadVideoAsync cfg videoStore userStore userUploads subscribers
              file user ip videoId tagIso recordIso baseUrl
              (.fault msg blocksDone true deleteFails) webhookOk).delivered)
    ∧ (uploadVideoAsync cfg videoStore userStore userUploads subscribers file
        user ip videoId tagIso recordIso baseUrl
        (.fault msg blocksDone true deleteFails) webhookOk).cleanupAttempted
      = true
    ∧ (uploadVideoAsync cfg videoStore userStore userUploads subscribers file
        user ip videoId tagIso recordIso baseUrl
        (.fault msg blocksDone true deleteFails) webhookOk).deleteCalled
      = true
    ∧ (uploadVideoAsync cfg videoStore userStore userUploads subscribers file
        user ip videoId tagIso recordIso baseUrl
        (.fault msg blocksDone true deleteFails) webhookOk).engineError
      = some ("Upload failed: " ++ msg) := by
  have hs : shouldUseStreamingUpload file.size = true := by
    simp only [shouldUseStreamingUpload, decide_eq_true_eq]
    simpa [STREAMING_THRESHOLD] using hstream
  simp only [uploadVideoAsync, uploadVideoToAzure, hs, if_true,
    uploadVideoStreamToAzure]
  refine ⟨trivial, trivial, trivial, ?_, trivial, trivial, trivial⟩
  intro s hsub
  refine List.mem_append_right _ ?_
  simp only [deliverAll, List.mem_map]
  exact ⟨s, hsub, rfl⟩

/-- C3 witness: a concrete 60 MB chunked upload failing on the second
block, with one subscriber. -/
theorem C3_failure_cleanup_witness :
    (uploadVideoAsync ⟨"acct", "videos"⟩ [] [] [] ["sub1"]
        ⟨"clip.mp4", 62914560⟩ ⟨"u1", "alice", none, 5368709120⟩ "1.2.3.4"
        "vid1" "2026-01-01T00:00:00.000Z" "2026-01-01T00:03:27.000Z"
        "http://localhost:8000"
        (.fault "socket hang up" 1 true true) true).videoStore = []
    ∧ (uploadVideoAsync ⟨"acct", "videos"⟩ [] [] [] ["sub1"]
        ⟨"clip.mp4", 62914560⟩ ⟨"u1", "alice", none, 5368709120⟩ "1.2.3.4"
        "vid1" "2026-01-01T00:00:00.000Z" "2026-01-01T00:03:27.000Z"
        "http://localhost:8000"
        (.fault "socket hang up" 1 true true) true).userStore = []
    ∧ (uploadVideoAsync ⟨"acct", "videos"⟩ [] [] [] ["sub1"]
        ⟨"clip.mp4", 62914560⟩ ⟨"u1", "alice", none, 5368709120⟩ "1.2.3.4"
        "vid1" "2026-01-01T00:00:00.000Z" "2026-01-01T00:03:27.000Z"
        "http://localhost:8000"
        (.fault "socket hang up" 1 true true) true).userUploads = []
    ∧ (∀ s ∈ ["sub1"],
        (s, SseMsg.error (sanitizeError ("Upload failed: " ++ "socket hang up")))
          ∈ (uploadVideoAsync ⟨"acct", "videos"⟩ [] [] [] ["sub1"]
              ⟨"clip.mp4", 62914560⟩ ⟨"u1", "alice", none, 5368709120⟩
              "1.2.3.4" "vid1" "2026-01-01T00:00:00.000Z"
              "2026-01-01T00:03:27.000Z" "http://localhost:8000"
              (.fault "socket hang up" 1 true true) true).delivered)
    ∧ (uploadVideoAsync ⟨"acct", "videos"⟩ [] [] [] ["sub1"]
        ⟨"clip.mp4", 62914560⟩ ⟨"u1", "alice", none, 5368709120⟩ "1.2.3.4"
        "vid1" "2026-01-01T00:00:00.000Z" "2026-01-01T00:03:27.000Z"
        "http://localhost:8000"
        (.fault "socket hang up" 1 true true) true).cleanupAttempted = true
    ∧ (uploadVideoAsync ⟨"acct", "videos"⟩ [] [] [] ["sub1"]
        ⟨"clip.mp4", 62914560⟩ ⟨"u1", "alice", none, 5368709120⟩ "1.2.3.4"
        "vid1" "2026-01-01T00:00:00.000Z" "2026-01-01T00:03:27.000Z"
        "http://localhost:8000"
        (.fault "socket hang up" 1 true true) true).deleteCalled = true
    ∧ (uploadVideoAsync ⟨"acct", "videos"⟩ [] [] [] ["sub1"]
        ⟨"clip.mp4", 62914560⟩ ⟨"u1", "alice", none, 5368709120⟩ "1.2.3.4"
        "vid1" "2026-01-01T00:00:00.000Z" "2026-01-01T00:03:27.000Z"
        "http://localhost:8000"
        (.fault "socket hang up" 1 true true) true).engineError
      = some ("Upload failed: " ++ "socket hang up") :=
  C3_failure_cleanup ⟨"acct", "videos"⟩ [] [] [] ["sub1"]
    ⟨"clip.mp4", 62914560⟩ ⟨"u1", "alice", none, 5368709120⟩ "1.2.3.4"
    "vid1" "2026-01-01T00:00:00.000Z" "2026-01-01T00:03:27.000Z"
    "http://localhost:8000" true "socket hang up" 1 true (by decide)

/-! ## Shared lemmas about the metadata-storage route -/

theorem self_ne_sentinel (s : String) : s ≠ s ++ "_webhook_sent" := by
  intro h
  have hl := congrArg String.length h
  rw [String.length_append] at hl
  have h13 : ("_webhook_sent" : String).length = 13 := by decide
  omega

theorem storeVideoMetadata_attempts_fresh
    (videoStore : List (String × StoreValue))
    (userStore : List (String × UserData))
    (userUploads : List (String × QuotaRec)) (req : StoreMetadataReq)
    (baseUrl : String) (webhookOk : Bool)
    (h : mapHas videoStore (req.videoId ++ "_webhook_sent") = false) :
    (storeVideoMetadata videoStore userStore userUploads req baseUrl
      webhookOk).webhookAttempts = 1 := by
  have hne : req.videoId ≠ req.videoId ++ "_webhook_sent" := self_ne_sentinel _
  have h1 : mapHas
      (mapSet videoStore req.videoId (.vid (storeMetadataVideoData req)))
      (req.videoId ++ "_webhook_sent") = false := by
    simpa [mapHas, mapGet_set_ne _ _ _ _ hne] using h
  simp only [storeVideoMetadata, h1, Bool.not_false, if_true]
  cases webhookOk <;> simp

theorem storeVideoMetadata_attempts_sent
    (videoStore : List (String × StoreValue))
    (userStore : List (String × UserData))
    (userUploads : List (String × QuotaRec)) (req : StoreMetadataReq)
    (baseUrl : String) (webhookOk : Bool)
    (h : mapHas videoStore (req.videoId ++ "_webhook_sent") = true) :
    (storeVideoMetadata videoStore userStore userUploads req baseUrl
      webhookOk).webhookAttempts = 0 := by
  have hne : req.videoId ≠ req.videoId ++ "_webhook_sent" := self_ne_sentinel _
  have h1 : mapHas
      (mapSet videoStore req.videoId (.vid (storeMetadataVideoData req)))
      (req.videoId ++ "_webhook_sent") = true := by
    simpa [mapHas, mapGet_set_ne _ _ _ _ hne] using h
  simp [storeVideoMetadata, h1]

theorem storeVideoMetadata_videoStore_fresh_ok
    (videoStore : List (String × StoreValue))
    (userStore : List (String × UserData))
    (userUploads : List (String × QuotaRec)) (req : StoreMetadataReq)
    (baseUrl : String)
    (h : mapHas videoStore (req.videoId ++ "_webhook_sent") = false) :
    (storeVideoMetadata videoStore userStore userUploads req baseUrl
        true).videoStore
      = mapSet
          (mapSet videoStore req.videoId (.vid (storeMetadataVideoData req)))
          (req.videoId ++ "_webhook_sent") (.flag true) := by
  have hne : req.videoId ≠ req.videoId ++ "_webhook_sent" := self_ne_sentinel _
  have h1 : mapHas
      (mapSet videoStore req.videoId (.vid (storeMetadataVideoData req)))
      (req.videoId ++ "_webhook_sent") = false := by
    simpa [mapHas, mapGet_set_ne _ _ _ _ hne] using h
  simp only [storeVideoMetadata, h1, Bool.not_false, if_true]

/-! ## Claim C5 — webhook idempotency guard -/

/-- C5 counterexample: when the webhook send fails, the sentinel is not
set, so invoking the completion route twice for the same video id
performs two notification sends — not at most one. -/
theorem C5_counterexample :
    (storeVideoMetadataTwice [] [] []
      ⟨"vidX", "vidX.mp4", "https://acct.blob.core.windows.net/videos/vidX.mp4",
       1000, "clip.mp4", ⟨"u1", "alice", none, 5368709120⟩, "1.2.3.4",
       "2026-01-01T00:00:00.000Z"⟩
      "http://localhost:8000" false false).webhookAttempts = 2 := by
  decide

/-- C5 (amended): the sentinel flag makes *successful* notification
sends at-most-once per video id: when the first invocation's send
succeeds, a duplicate invocation for the same id attempts no further
send, so the two invocations together attempt exactly one; a failed send
leaves the sentinel unset and is retried by a later invocation. -/
theorem C5_webhook_idempotent (videoStore : List (String × StoreValue))
    (userStore : List (String × UserData))
    (userUploads : List (String × QuotaRec)) (req : StoreMetadataReq)
    (baseUrl : String)
    (h : mapHas videoStore (req.videoId ++ "_webhook_sent") = false) :
    (storeVideoMetadataTwice videoStore userStore userUploads req baseUrl
      true true).webhookAttempts = 1 := by
  have h1 := storeVideoMetadata_attempts_fresh videoStore userStore
    userUploads req baseUrl true h
  have h2 : mapHas
      (storeVideoMetadata videoStore userStore userUploads req baseUrl
        true).videoStore (req.videoId ++ "_webhook_sent") = true := by
    rw [storeVideoMetadata_videoStore_fresh_ok videoStore userStore
      userUploads req baseUrl h]
    simp [mapHas, mapGet_set_self]
  have h3 := storeVideoMetadata_attempts_sent
    (storeVideoMetadata videoStore userStore userUploads req baseUrl
      true).videoStore
    (storeVideoMetadata videoStore userStore userUploads req baseUrl
      true).userStore
    (storeVideoMetadata videoStore userStore userUploads req baseUrl
      true).userUploads req baseUrl true h2
  simp [storeVideoMetadataTwice, h1, h3]

/-- C5 witness: a duplicate completion for a fresh video id with a
succeeding webhook attempts exactly one send. -/
theorem C5_webhook_idempotent_witness :
    (storeVideoMetadataTwice [] [] []
      ⟨"vidX", "vidX.mp4", "https://acct.blob.core.windows.net/videos/vidX.mp4",
       1000, "clip.mp4", ⟨"u1", "alice", none, 5368709120⟩, "1.2.3.4",
       "2026-01-01T00:00:00.000Z"⟩
      "http://localhost:8000" true true).webhookAttempts = 1 :=
  C5_webhook_idempotent [] [] []
    ⟨"vidX", "vidX.mp4", "https://acct.blob.core.windows.net/videos/vidX.mp4",
     1000, "clip.mp4", ⟨"u1", "alice", none, 5368709120⟩, "1.2.3.4",
     "2026-01-01T00:00:00.000Z"⟩
    "http://localhost:8000" (by decide)

/-! ## Claim C9 — sentinel entries pollute the catalog -/

/-- C9: a successful completion writes a bare `true` under
`videoId + '_webhook_sent'` into the video store; that entry is not a
video record, yet `getAllClips` iterates it like any video (the clips
list has one entry per store entry, including one whose id is the
sentinel key and whose record fields are undefined). -/
theorem C9_sentinel_in_catalog (videoStore : List (String × StoreValue))
    (userStore : List (String × UserData))
    (userUploads : List (String × QuotaRec)) (req : StoreMetadataReq)
    (baseUrl : String)
    (h : mapHas videoStore (req.videoId ++ "_webhook_sent") = false) :
    mapGet (storeVideoMetadata videoStore userStore userUploads req baseUrl
        true).videoStore (req.videoId ++ "_webhook_sent")
      = some (.flag true)
    ∧ (∀ v : VideoData,
        mapGet (storeVideoMetadata videoStore userStore userUploads req
            baseUrl true).videoStore (req.videoId ++ "_webhook_sent")
          ≠ some (.vid v))
    ∧ (getAllClips (storeVideoMetadata videoStore userStore userUploads req
          baseUrl true).videoStore baseUrl).length
      = (storeVideoMetadata videoStore userStore userUploads req baseUrl
          true).videoStore.length
    ∧ ∃ c ∈ getAllClips (storeVideoMetadata videoStore userStore userUploads
          req baseUrl true).videoStore baseUrl,
        c.id = req.videoId ++ "_webhook_sent" ∧ c.originalName = none := by
  rw [storeVideoMetadata_videoStore_fresh_ok videoStore userStore userUploads
    req baseUrl h]
  refine ⟨mapGet_set_self _ _ _, ?_, ?_, ?_⟩
  · intro v hv
    rw [mapGet_set_self] at hv
    simp at hv
  · simp [getAllClips]
  · refine ⟨_, List.mem_map_of_mem _ (List.mem_cons_self _ _), rfl, rfl⟩

/-- C9 witness: concrete completion on an empty store. -/
theorem C9_sentinel_in_catalog_witness :
    mapGet (storeVideoMetadata [] [] []
        ⟨"vidX", "vidX.mp4",
         "https://acct.blob.core.windows.net/videos/vidX.mp4", 1000,
         "clip.mp4", ⟨"u1", "alice", none, 5368709120⟩, "1.2.3.4",
         "2026-01-01T00:00:00.000Z"⟩
        "http://localhost:8000" true).videoStore ("vidX" ++ "_webhook_sent")
      = some (.flag true)
    ∧ (∀ v : VideoData,
        mapGet (storeVideoMetadata [] [] []
            ⟨"vidX", "vidX.mp4",
             "https://acct.blob.core.windows.net/videos/vidX.mp4", 1000,
             "clip.mp4", ⟨"u1", "alice", none, 5368709120⟩, "1.2.3.4",
             "2026-01-01T00:00:00.000Z"⟩
            "http://localhost:8000" true).videoStore
            ("vidX" ++ "_webhook_sent")
          ≠ some (.vid v))
    ∧ (getAllClips (storeVideoMetadata [] [] []
          ⟨"vidX", "vidX.mp4",
           "https://acct.blob.core.windows.net/videos/vidX.mp4", 1000,
           "clip.mp4", ⟨"u1", "alice", none, 5368709120⟩, "1.2.3.4",
           "2026-01-01T00:00:00.000Z"⟩
          "http://localhost:8000" true).videoStore
          "http://localhost:8000").length
      = (storeVideoMetadata [] [] []
          ⟨"vidX", "vidX.mp4",
           "https://acct.blob.core.windows.net/videos/vidX.mp4", 1000,
           "clip.mp4", ⟨"u1", "alice", none, 5368709120⟩, "1.2.3.4",
           "2026-01-01T00:00:00.000Z"⟩
          "http://localhost:8000" true).videoStore.length
    ∧ ∃ c ∈ getAllClips (storeVideoMetadata [] [] []
          ⟨"vidX", "vidX.mp4",
           "https://acct.blob.core.windows.net/videos/vidX.mp4", 1000,
           "clip.mp4", ⟨"u1", "alice", none, 5368709120⟩, "1.2.3.4",
           "2026-01-01T00:00:00.000Z"⟩
          "http://localhost:8000" true).videoStore "http://localhost:8000",
        c.id = "vidX" ++ "_webhook_sent" ∧ c.originalName = none :=
  C9_sentinel_in_catalog [] [] []
    ⟨"vidX", "vidX.mp4", "https://acct.blob.core.windows.net/videos/vidX.mp4",
     1000, "clip.mp4", ⟨"u1", "alice", none, 5368709120⟩, "1.2.3.4",
     "2026-01-01T00:00:00.000Z"⟩
    "http://localhost:8000" (by decide)

/-! ## Claim C4 — catalog rebuild reproduces the upload-time record -/

theorem jsOr_empty_right (s : String) : jsOr s "" = s := by
  unfold jsOr
  split <;> simp_all

theorem parseIntOr_jsToString_self (n : Nat) : parseIntOr (jsToString n) n = n := by
  simp [parseIntOr, parseIntDec_jsToString]

/-- C4 counterexample: the stored tag's `uploadDate` is the instant the
upload options are built, before the awaited transfer; the upload-time
record's `uploadDate` is a second `new Date()` evaluated only after the
transfer resolves. The rebuilt record carries the tag instant, so for a
run whose transfer took any time at all (here: tag instant 00:00:00,
record instant 00:03:27) the rebuilt record is not field-by-field equal
to the upload-time record — the `uploadDate` fields differ. -/
theorem C4_counterexample :
    rebuildVideoData ⟨"acct", "videos"⟩
        (storedBlobOfUpload "abc123" "clip.mp4" 12345
          ⟨"u1", "alice", none, 5368709120⟩ "1.2.3.4"
          "2026-01-01T00:00:00.000Z" "2026-01-01T00:03:27.000Z")
      ≠ some (uploadVideoData ⟨"acct", "videos"⟩ "abc123" "clip.mp4" 12345
          ⟨"u1", "alice", none, 5368709120⟩ "1.2.3.4"
          "2026-01-01T00:03:27.000Z")
    ∧ (rebuildVideoData ⟨"acct", "videos"⟩
        (storedBlobOfUpload "abc123" "clip.mp4" 12345
          ⟨"u1", "alice", none, 5368709120⟩ "1.2.3.4"
          "2026-01-01T00:00:00.000Z" "2026-01-01T00:03:27.000Z")).map
        (fun v => v.uploadDate)
      = some "2026-01-01T00:00:00.000Z"
    ∧ (uploadVideoData ⟨"acct", "videos"⟩ "abc123" "clip.mp4" 12345
        ⟨"u1", "alice", none, 5368709120⟩ "1.2.3.4"
        "2026-01-01T00:03:27.000Z").uploadDate
      = "2026-01-01T00:03:27.000Z" := by
  refine ⟨?_, by decide, by decide⟩
  intro h
  have hd := congrArg (fun o => Option.map (fun v : VideoData => v.uploadDate) o) h
  revert hd
  decide

/-- C4 (amended): for every object stored by the upload engine, the
rebuild routine reconstructs from the object's tags and service-side
metadata alone a record equal field-by-field to the upload-time
`videoData` (download counter included: both are the persisted 0) in
every field except `uploadDate`: the rebuilt record carries the
pre-transfer tag instant, not the record's post-transfer instant. Side
conditions: the original name, user id, username and request ip are
nonempty (the `||` fallbacks in the rebuild would rewrite empty
strings), and the generated id contains no extension-like dot (true of
the 32-hex-digit ids the engine generates). -/
theorem C4_rebuild_roundtrip (cfg : AzureConfig) (videoId originalName : String)
    (fileSize : Nat) (user : AuthUser)
    (ip tagIso recordIso lastModifiedIso : String)
    (hv : videoId ≠ "") (hn : originalName ≠ "") (hu : user.id ≠ "")
    (hun : user.username ≠ "") (hip : ip ≠ "")
    (hext : extname videoId = "") :
    rebuildVideoData cfg
        (storedBlobOfUpload videoId originalName fileSize user ip tagIso
          lastModifiedIso)
      = some { uploadVideoData cfg videoId originalName fileSize user ip
                 recordIso with
               uploadDate := tagIso } := by
  have hff : jsOr (extname originalName)
      (extname (videoId ++ extname originalName)) = extname originalName := by
    by_cases h : extname originalName = ""
    · rw [h]
      show jsOr "" (extname (videoId ++ "")) = ""
      rw [String.append_empty]
      simp [jsOr, hext]
    · simp [jsOr, h]
  have hmkv : ((if (extname originalName).toLower = ".mkv" then "true"
      else "false") == "true") = ((extname originalName).toLower == ".mkv") := by
    by_cases h : (extname originalName).toLower = ".mkv" <;> simp [h]
  have hdc : parseIntOr "0" 0 = 0 := by decide
  have hOrName : jsOr originalName (videoId ++ extname originalName)
      = originalName := by simp [jsOr, hn]
  have hOrUid : jsOr user.id "Unknown" = user.id := by simp [jsOr, hu]
  have hOrUser : jsOr user.username "Unknown User" = user.username := by
    simp [jsOr, hun]
  have hOrIp : jsOr ip "Unknown" = ip := by simp [jsOr, hip]
  have hOrAv : jsOr (user.avatar.getD "") "" = user.avatar.getD "" :=
    jsOr_empty_right _
  have hOrCt : jsOr (getContentType (extname originalName))
      (getContentType (extname originalName))
      = getContentType (extname originalName) := by simp [jsOr]
  simp only [rebuildVideoData, storedBlobOfUpload, uploadMetadata,
    uploadVideoData, blobUrlOf]
  simp [hv, hOrName, hOrUid, hOrUser, hOrIp, hOrAv, hOrCt, hff, hmkv, hdc,
    parseIntOr_jsToString_self]

/-- C4 witness: a concrete stored object rebuilds to its upload-time
record with the pre-transfer tag instant in `uploadDate`. -/
theorem C4_rebuild_roundtrip_witness :
    rebuildVideoData ⟨"acct", "videos"⟩
        (storedBlobOfUpload "abc123" "clip.mp4" 12345
          ⟨"u1", "alice", none, 5368709120⟩ "1.2.3.4"
          "2026-01-01T00:00:00.000Z" "2026-01-01T00:03:27.000Z")
      = some { uploadVideoData ⟨"acct", "videos"⟩ "abc123" "clip.mp4" 12345
                 ⟨"u1", "alice", none, 5368709120⟩ "1.2.3.4"
                 "2026-01-01T00:03:27.000Z" with
               uploadDate := "2026-01-01T00:00:00.000Z" } :=
  C4_rebuild_roundtrip ⟨"acct", "videos"⟩ "abc123" "clip.mp4" 12345
    ⟨"u1", "alice", none, 5368709120⟩ "1.2.3.4" "2026-01-01T00:00:00.000Z"
    "2026-01-01T00:03:27.000Z" "2026-01-01T00:03:27.000Z"
    (by decide) (by decide) (by decide) (by decide) (by decide) (by decide)

end VAExpress
